import Mathlib

/-!
Shallow embedding of src/RunClang.cxx, the clang-invocation orchestrator of
CastXML.  C++ strings are modelled as `List Char`.  The clang driver, the
frontend toolkit and the XML serializer are external collaborators; their
observable interaction with this file's code (the computed job list, each
job's parse and execution results, the diagnostics reported) is modelled by
explicit data carried in the input structures and collected in the output
structures.
-/

namespace CastXML

/-- Test whether the pattern (first argument) occurs at the very start of the
second list.  This is the single-position matching primitive underlying the
model of C++ std::string::find. -/
def leadsWith : List Char → List Char → Bool
  | [], _ => true
  | _ :: _, [] => false
  | p :: ps, a :: l => p == a && leadsWith ps l

/-- First index at which the pattern occurs in the haystack; models
std::string::find, with none playing the role of std::string::npos. -/
def findSub (pat : List Char) : List Char → Option Nat
  | [] => if leadsWith pat [] then some 0 else none
  | a :: l => if leadsWith pat (a :: l) then some 0 else (findSub pat l).map (· + 1)

/-- The predef_start marker line of CastXMLPredefines::UpdatePredefines
(RunClang.cxx line 72). -/
def predefStartMarker : List Char := ("# 1 \"<built-in>\" 3\n").data

/-- The predef_end marker line of CastXMLPredefines::UpdatePredefines
(RunClang.cxx line 73). -/
def predefEndMarker : List Char := ("# 1 \"<command line>\" 1\n").data

/-- CastXMLPredefines::UpdatePredefines (RunClang.cxx lines 67-83):
if both marker lines are found, splice the configured replacement predefines
(this->Opts.Predefines, here the first argument) between the end of the
built-in marker line and the start of the command-line marker; otherwise
append the replacement to the whole text.  substr(0, start+sizeof-1) is
take (start + marker length); substr(end) is drop end. -/
def UpdatePredefines (optsPredefines predefines : List Char) : List Char :=
  match findSub predefStartMarker predefines, findSub predefEndMarker predefines with
  | some s, some e =>
      predefines.take (s + predefStartMarker.length) ++ optsPredefines
        ++ predefines.drop e
  | _, _ => predefines ++ optsPredefines

/-- The Options structure consumed by RunClang.cxx (fields as used there). -/
structure Options where
  HaveCC : Bool
  Triple : List Char
  Includes : List (List Char)
  Predefines : List Char
  PPOnly : Bool
  GccXml : Bool
  OutputFile : List Char
  StartNames : List (List Char)
  deriving DecidableEq

/-- clang::frontend::ActionKind as inspected by CreateFrontendAction: the two
supported actions, and any other action identified by its numeric code. -/
inductive ActionKind
  | printPreprocessedInput
  | parseSyntaxOnly
  | other (code : Nat)
  deriving DecidableEq

/-- The two frontend action classes CreateFrontendAction can construct. -/
inductive FrontendActionChoice
  | printPreprocessedAction
  | syntaxOnlyAction
  deriving DecidableEq

/-- Diagnostics observable from runClangImpl and CreateFrontendAction:
the three DiagnosticsEngine reports and the unsupported-action message
printed to std::cerr, in one stream distinguished by constructor. -/
inductive Diag
  | outputArgumentWithMultipleFiles
  | expectedClangCommand
  | expectedCompilerJob (text : List Char)
  | unsupportedAction (code : Nat)
  deriving DecidableEq

/-- The externally observable content of one job's parsed CompilerInvocation:
its recorded ProgramAction, whether createDiagnostics succeeds for the fresh
CompilerInstance, the result ExecuteAction would return, and how many times
the serializer (outputXML) would run during that execution. -/
structure Invocation where
  action : ActionKind
  hasDiagnostics : Bool
  execResult : Bool
  serializations : Nat
  deriving DecidableEq

/-- One element of the driver's computed job list: whether it is a
clang::driver::Command (the dyn_cast at line 239), its creator tool name,
the result of CompilerInvocation::CreateFromArgs on its argument vector
(none on parse failure), and the serialized description its Print method
would produce. -/
structure Job where
  isCommand : Bool
  creatorName : List Char
  parse : Option Invocation
  printedText : List Char
  deriving DecidableEq

/-- Observable outcome of handling a single job in the dispatch loop. -/
structure JobOutcome where
  result : Bool
  diags : List Diag
  executedCI : Bool
  serializations : Nat
  deriving DecidableEq

/-- Observable outcome of one runClangImpl run: the exit code, all reported
diagnostics, the recorded boolean result of each dispatched job in order,
the number of jobs whose ExecuteAction ran, and the total number of
serializer invocations. -/
structure RunOutput where
  exit : Nat
  diags : List Diag
  results : List Bool
  executed : Nat
  serializations : Nat
  deriving DecidableEq

/-- The inputs runClangImpl receives from its external collaborators: whether
the parsed arguments carry the -### print-jobs flag, and the job list the
driver's BuildCompilation computed. -/
structure RunInput where
  printJobs : Bool
  jobs : List Job
  deriving DecidableEq

/-- The tool name compared against each job's creator (RunClang.cxx line 240). -/
def clangName : List Char := ("clang").data

/-- CreateFrontendAction (RunClang.cxx lines 126-140): switch on the
invocation's ProgramAction; construct an action for the two supported kinds,
otherwise print the unsupported-action message naming the numeric code and
return null. -/
def CreateFrontendAction : ActionKind → Option FrontendActionChoice × List Diag
  | ActionKind.printPreprocessedInput =>
      (some FrontendActionChoice.printPreprocessedAction, [])
  | ActionKind.parseSyntaxOnly =>
      (some FrontendActionChoice.syntaxOnlyAction, [])
  | ActionKind.other code => (none, [Diag.unsupportedAction code])

/-- runClangCI (RunClang.cxx lines 143-167): fail if no diagnostics engine
could be created; otherwise construct the frontend action and, if one was
constructed, the job's result is ExecuteAction's result, else false.
Setting SkipFunctionBodies and OutputFile on the instance has no further
observable effect in this model. -/
def runClangCI (inv : Invocation) : JobOutcome :=
  if inv.hasDiagnostics = false then ⟨false, [], false, 0⟩
  else
    match CreateFrontendAction inv.action with
    | (some _, ds) => ⟨inv.execResult, ds, true, inv.serializations⟩
    | (none, ds) => ⟨false, ds, false, 0⟩

/-- Body of the dispatch loop of runClangImpl (RunClang.cxx lines 237-262)
for one job: a recognized clang Command is parsed and run through runClangCI
(parse failure records false); any other job is reported with the
expected-clang-command diagnostic and the expected-compiler-job diagnostic
carrying the job's serialized description, and records false. -/
def processJob (j : Job) : JobOutcome :=
  if j.isCommand = true ∧ j.creatorName = clangName then
    match j.parse with
    | some inv => runClangCI inv
    | none => ⟨false, [], false, 0⟩
  else
    ⟨false, [Diag.expectedClangCommand, Diag.expectedCompilerJob j.printedText],
     false, 0⟩

/-- runClangImpl (RunClang.cxx lines 192-264) from the point where the job
list exists: for -### print the jobs and return 0; then reject -o with
multiple inputs; otherwise dispatch every job in order, AND the results, and
map the aggregate to exit code 0 or 1. -/
def runClangImpl (opts : Options) (inp : RunInput) : RunOutput :=
  if inp.printJobs = true then ⟨0, [], [], 0, 0⟩
  else if opts.OutputFile ≠ [] ∧ 1 < inp.jobs.length then
    ⟨1, [Diag.outputArgumentWithMultipleFiles], [], 0, 0⟩
  else
    let outs := inp.jobs.map processJob
    ⟨if outs.all (fun o => o.result) = true then 0 else 1,
     (outs.map (fun o => o.diags)).flatten,
     outs.map (fun o => o.result),
     (outs.map (fun o => if o.executedCI = true then 1 else 0)).sum,
     (outs.map (fun o => o.serializations)).sum⟩

/-- The driver-level precondition that fails a run before any job executes:
the output-conflict rejection, reachable only when -### is absent. -/
def driverPrecondFailed (opts : Options) (inp : RunInput) : Prop :=
  inp.printJobs = false ∧ opts.OutputFile ≠ [] ∧ 1 < inp.jobs.length

/-- Token -target pushed by runClang (RunClang.cxx line 276). -/
def targetFlag : List Char := ("-target").data

/-- Token -nostdinc pushed by runClang (RunClang.cxx line 281). -/
def nostdincFlag : List Char := ("-nostdinc").data

/-- Token -isystem pushed by runClang (RunClang.cxx line 286). -/
def isystemFlag : List Char := ("-isystem").data

/-- Token -undef pushed by runClang (RunClang.cxx line 291). -/
def undefFlag : List Char := ("-undef").data

/-- The argument-augmentation part of runClang (RunClang.cxx lines 267-294):
when emulating a compiler (HaveCC), push -target and the triple if the triple
is nonempty, then -nostdinc, then -isystem followed by each include directory
in order, then -undef; otherwise the vector is passed through unchanged. -/
def runClangArgs (opts : Options) (args : List (List Char)) : List (List Char) :=
  if opts.HaveCC = true then
    let a1 := if opts.Triple ≠ [] then args ++ [targetFlag, opts.Triple] else args
    let a2 := a1 ++ [nostdincFlag]
    let a3 := opts.Includes.foldl (fun acc dir => acc ++ [isystemFlag, dir]) a2
    a3 ++ [undefFlag]
  else args

/-- Sample invocation that parses and executes successfully (syntax-only,
one serializer invocation during execution). -/
def invGood : Invocation := ⟨ActionKind.parseSyntaxOnly, true, true, 1⟩

/-- Sample job: a recognized clang command that succeeds. -/
def jobGood : Job := ⟨true, clangName, some invGood, []⟩

/-- Sample invocation whose recorded ProgramAction is unsupported (code 5). -/
def invBadAction : Invocation := ⟨ActionKind.other 5, true, true, 0⟩

/-- Sample job: a recognized clang command carrying an unsupported action. -/
def jobBadAction : Job := ⟨true, clangName, some invBadAction, []⟩

/-- Sample job that is not a recognized clang compiler command. -/
def jobNonCompiler : Job := ⟨false, ("ld").data, none, ("ld a.o b.o").data⟩

/-- Sample configuration with no emulation and no explicit output file. -/
def optsPlain : Options := ⟨false, [], [], [], false, false, [], []⟩

/-- Sample configuration with an explicit output file configured. -/
def optsWithOutput : Options :=
  ⟨false, [], [], [], false, false, ("out.xml").data, []⟩

/-- Sample emulation configuration with a triple and two include dirs. -/
def optsEmu : Options :=
  ⟨true, ("x86_64-unknown-linux-gnu").data, [("/inc1").data, ("/inc2").data],
   ("#define FOO 1\n").data, false, false, [], []⟩

/-- Sample predefines text containing both marker lines. -/
def sampleText : List Char :=
  ("A\n").data ++ predefStartMarker ++ ("B\n").data ++ predefEndMarker
    ++ ("C\n").data

/-- Sample replacement predefines text. -/
def sampleRepl : List Char := ("#define FOO 1\n").data

theorem leadsWith_eq_true : ∀ pat l : List Char,
    leadsWith pat l = true ↔ ∃ t, pat ++ t = l
  | [], l => by simp [leadsWith]
  | _ :: _, [] => by simp [leadsWith]
  | p :: ps, a :: l => by
      simp [leadsWith, Bool.and_eq_true, beq_iff_eq, leadsWith_eq_true ps l,
        List.cons.injEq]

theorem findSub_some {pat : List Char} :
    ∀ (hay : List Char) {i : Nat}, findSub pat hay = some i →
      ∃ t, pat ++ t = hay.drop i := by
  intro hay
  induction hay with
  | nil =>
    intro i h
    simp only [findSub] at h
    split at h
    · obtain rfl : (0 : Nat) = i := Option.some.inj h
      simpa using (leadsWith_eq_true pat []).mp (by assumption)
    · exact absurd h (by simp)
  | cons a l ih =>
    intro i h
    simp only [findSub] at h
    split at h
    · obtain rfl : (0 : Nat) = i := Option.some.inj h
      simpa using (leadsWith_eq_true pat (a :: l)).mp (by assumption)
    · obtain ⟨j, hj, rfl⟩ := Option.map_eq_some'.mp h
      simpa using ih hj

theorem take_add_append (l : List Char) (m n : Nat) :
    l.take (m + n) = l.take m ++ (l.drop m).take n := by
  induction m generalizing l with
  | zero => simp
  | succ k ih =>
    cases l with
    | nil => simp
    | cons a t => simp [Nat.succ_add, ih]

/-- C1: if the predefines text contains both marker lines (at first
occurrences s and e), UpdatePredefines returns exactly X ++ R ++ Y, where X
is the text up to and including the built-in marker line and Y is the text
from the command-line marker onward; X is literally an initial segment of
the text and Y literally a final segment, so no characters of X or Y are
dropped. -/
theorem c1_updatePredefines_splice (R text : List Char) (s e : Nat)
    (hs : findSub predefStartMarker text = some s)
    (he : findSub predefEndMarker text = some e) :
    UpdatePredefines R text
      = (text.take s ++ predefStartMarker) ++ R ++ text.drop e
    ∧ (text.take s ++ predefStartMarker)
        ++ text.drop (s + predefStartMarker.length) = text
    ∧ (∃ t, predefEndMarker ++ t = text.drop e)
    ∧ text.take e ++ text.drop e = text := by
  obtain ⟨t, ht⟩ := findSub_some text hs
  have hX : text.take (s + predefStartMarker.length)
      = text.take s ++ predefStartMarker := by
    rw [take_add_append, ← ht, List.take_left]
  refine ⟨?_, ?_, findSub_some text he, List.take_append_drop e text⟩
  · simp only [UpdatePredefines, hs, he, hX]
  · rw [← hX, List.take_append_drop]

/-- C1 witness: the splice at a concrete predefines text containing both
markers, with replacement sampleRepl. -/
theorem c1_updatePredefines_splice_witness :
    UpdatePredefines sampleRepl sampleText
      = (sampleText.take 2 ++ predefStartMarker) ++ sampleRepl
          ++ sampleText.drop 23
    ∧ (sampleText.take 2 ++ predefStartMarker)
        ++ sampleText.drop (2 + predefStartMarker.length) = sampleText
    ∧ (∃ t, predefEndMarker ++ t = sampleText.drop 23)
    ∧ sampleText.take 23 ++ sampleText.drop 23 = sampleText :=
  c1_updatePredefines_splice sampleRepl sampleText 2 23 (by decide) (by decide)

/-- C2: if either marker line is absent from the predefines text,
UpdatePredefines returns the original text with the replacement appended. -/
theorem c2_updatePredefines_fallback (R text : List Char)
    (h : findSub predefStartMarker text = none
       ∨ findSub predefEndMarker text = none) :
    UpdatePredefines R text = text ++ R := by
  rcases h with h | h
  · simp [UpdatePredefines, h]
  · rcases hs : findSub predefStartMarker text with _ | s
    · simp [UpdatePredefines, hs]
    · simp [UpdatePredefines, hs, h]

/-- C2 witness: on a marker-free text the output is text ++ replacement. -/
theorem c2_updatePredefines_fallback_witness :
    UpdatePredefines sampleRepl (("no markers here\n").data)
      = (("no markers here\n").data) ++ sampleRepl :=
  c2_updatePredefines_fallback sampleRepl (("no markers here\n").data)
    (Or.inl (by decide))

/-- C10: for every predefines text and every replacement, the replacement
occurs contiguously and unaltered in the output of UpdatePredefines, in the
splice branch as well as in the append-fallback branch. -/
theorem c10_replacement_contained (R text : List Char) :
    ∃ l r, UpdatePredefines R text = l ++ R ++ r := by
  rcases hs : findSub predefStartMarker text with _ | s
  · exact ⟨text, [], by simp [UpdatePredefines, hs]⟩
  · rcases he : findSub predefEndMarker text with _ | e
    · exact ⟨text, [], by simp [UpdatePredefines, hs, he]⟩
    · exact ⟨text.take (s + predefStartMarker.length), text.drop e,
        by simp [UpdatePredefines, hs, he]⟩

/-- C3: the exit code of runClangImpl is 0 exactly when no driver-level
precondition failed and the logical AND of every dispatched job's recorded
boolean result is true (vacuously true when no job was dispatched); one
failed job among several therefore yields exit 1, all-successful jobs yield
exit 0. -/
theorem c3_exit_zero_iff (opts : Options) (inp : RunInput) :
    (runClangImpl opts inp).exit = 0 ↔
      (¬ driverPrecondFailed opts inp
        ∧ (runClangImpl opts inp).results.all (fun b => b) = true) := by
  by_cases hp : inp.printJobs = true
  · simp [runClangImpl, hp, driverPrecondFailed]
  · rw [Bool.not_eq_true] at hp
    by_cases hc : opts.OutputFile ≠ [] ∧ 1 < inp.jobs.length
    · simp [runClangImpl, hp, hc.1, hc.2, driverPrecondFailed]
    · by_cases hall : ∀ a ∈ inp.jobs, (processJob a).result = true
      · simp [runClangImpl, hp, hc, driverPrecondFailed, hall]
      · simp [runClangImpl, hp, hc, driverPrecondFailed, hall]

/-- C4 counterexample: when the print-jobs flag is present, a configured
output file together with two computed jobs does NOT fail the run — the exit
code is 0, not 1, and no diagnostic is reported. -/
theorem c4_counterexample :
    optsWithOutput.OutputFile ≠ []
    ∧ 1 < (RunInput.mk true [jobGood, jobGood]).jobs.length
    ∧ ¬ (runClangImpl optsWithOutput
          (RunInput.mk true [jobGood, jobGood])).exit = 1 :=
  ⟨by decide, by decide, by decide⟩

/-- C4 amended: if the print-jobs flag is absent, an explicit output file is
configured and the driver computed more than one job, the run fails with
exit code 1 and the fatal output-conflict diagnostic, before any job
executes and with the serializer never invoked. -/
theorem c4_output_conflict_fatal (opts : Options) (inp : RunInput)
    (h0 : inp.printJobs = false) (h1 : opts.OutputFile ≠ [])
    (h2 : 1 < inp.jobs.length) :
    runClangImpl opts inp
      = ⟨1, [Diag.outputArgumentWithMultipleFiles], [], 0, 0⟩ := by
  simp [runClangImpl, h0, h1, h2]

/-- C4 witness: the output conflict at a concrete two-job input. -/
theorem c4_output_conflict_fatal_witness :
    runClangImpl optsWithOutput (RunInput.mk false [jobGood, jobGood])
      = ⟨1, [Diag.outputArgumentWithMultipleFiles], [], 0, 0⟩ :=
  c4_output_conflict_fatal optsWithOutput (RunInput.mk false [jobGood, jobGood])
    rfl (by decide) (by decide)

/-- C5: whenever the print-jobs flag is present in the parsed arguments, the
run exits 0, records no job result, executes no job, and never invokes the
serializer — for every configuration. -/
theorem c5_dry_run (opts : Options) (inp : RunInput)
    (h : inp.printJobs = true) :
    (runClangImpl opts inp).exit = 0
    ∧ (runClangImpl opts inp).results = []
    ∧ (runClangImpl opts inp).executed = 0
    ∧ (runClangImpl opts inp).serializations = 0 := by
  simp [runClangImpl, h]

/-- C5 witness: dry-run wins even on a configuration that would otherwise
trigger the output/multiple-file failure. -/
theorem c5_dry_run_witness :
    (runClangImpl optsWithOutput (RunInput.mk true [jobGood, jobGood])).exit = 0
    ∧ (runClangImpl optsWithOutput (RunInput.mk true [jobGood, jobGood])).results = []
    ∧ (runClangImpl optsWithOutput (RunInput.mk true [jobGood, jobGood])).executed = 0
    ∧ (runClangImpl optsWithOutput
        (RunInput.mk true [jobGood, jobGood])).serializations = 0 :=
  c5_dry_run optsWithOutput (RunInput.mk true [jobGood, jobGood]) rfl

theorem runClangImpl_results (opts : Options) (inp : RunInput)
    (hp : inp.printJobs = false)
    (hc : ¬(opts.OutputFile ≠ [] ∧ 1 < inp.jobs.length)) :
    (runClangImpl opts inp).results
      = inp.jobs.map (fun x => (processJob x).result) := by
  simp [runClangImpl, hp, hc, List.map_map, Function.comp]

theorem foldl_isystem : ∀ l acc : List (List Char),
    l.foldl (fun acc dir => acc ++ [isystemFlag, dir]) acc
      = acc ++ (l.map (fun dir => [isystemFlag, dir])).flatten
  | [], acc => by simp
  | d :: t, acc => by simp [foldl_isystem t, List.append_assoc]

/-- C6: with emulation requested, the augmented vector is exactly the input
followed by: -target and the triple when the triple is nonempty, then
-nostdinc, then -isystem immediately followed by each include directory in
original order, then -undef; the input tokens are untouched. -/
theorem c6_augment_emulation (opts : Options) (args : List (List Char))
    (h : opts.HaveCC = true) :
    runClangArgs opts args
      = args ++ (if opts.Triple = [] then [] else [targetFlag, opts.Triple])
          ++ [nostdincFlag]
          ++ (opts.Includes.map (fun dir => [isystemFlag, dir])).flatten
          ++ [undefFlag] := by
  by_cases ht : opts.Triple = []
  · simp [runClangArgs, h, ht, foldl_isystem]
  · simp [runClangArgs, h, ht, foldl_isystem]

/-- C6 witness: the augmentation at a concrete emulation configuration. -/
theorem c6_augment_emulation_witness :
    runClangArgs optsEmu [("a.cpp").data]
      = [("a.cpp").data]
          ++ (if optsEmu.Triple = [] then [] else [targetFlag, optsEmu.Triple])
          ++ [nostdincFlag]
          ++ (optsEmu.Includes.map (fun dir => [isystemFlag, dir])).flatten
          ++ [undefFlag] :=
  c6_augment_emulation optsEmu [("a.cpp").data] rfl

/-- C7: with emulation disabled the argument augmentation is the identity:
the output vector equals the input vector exactly. -/
theorem c7_augment_identity (opts : Options) (args : List (List Char))
    (h : opts.HaveCC = false) :
    runClangArgs opts args = args := by
  simp [runClangArgs, h]

/-- C7 witness: identity at a concrete argument vector. -/
theorem c7_augment_identity_witness :
    runClangArgs optsPlain [("a.cpp").data, ("-std=c++11").data]
      = [("a.cpp").data, ("-std=c++11").data] :=
  c7_augment_identity optsPlain [("a.cpp").data, ("-std=c++11").data] rfl

/-- C8 counterexample: with an unsupported-action job followed by a good job,
the unsupported-action diagnostic (naming code 5) is reported, yet the run
does not abort like the driver-level validation failures: the subsequent job
is still dispatched and executed (one executed instance, and the recorded
results cover both jobs). -/
theorem c8_counterexample :
    (runClangImpl optsPlain (RunInput.mk false [jobBadAction, jobGood])).diags
        = [Diag.unsupportedAction 5]
    ∧ (runClangImpl optsPlain
        (RunInput.mk false [jobBadAction, jobGood])).executed = 1
    ∧ (runClangImpl optsPlain
        (RunInput.mk false [jobBadAction, jobGood])).results = [false, true] :=
  ⟨by decide, by decide, by decide⟩

/-- C8 amended: a job whose parsed invocation carries an unsupported program
action is recorded as failed and, because the aggregate is a logical AND, no
other job's result can make the run succeed — the exit code is 1; however,
the dispatcher continues rather than aborting: every job of the list is
still processed in order. -/
theorem c8_unsupported_action_fails_run (opts : Options) (inp : RunInput)
    (j : Job) (inv : Invocation) (code : Nat)
    (hp : inp.printJobs = false)
    (hc : ¬(opts.OutputFile ≠ [] ∧ 1 < inp.jobs.length))
    (hj : j ∈ inp.jobs)
    (hcmd : j.isCommand = true) (hname : j.creatorName = clangName)
    (hparse : j.parse = some inv)
    (hdiag : inv.hasDiagnostics = true)
    (hact : inv.action = ActionKind.other code) :
    (runClangImpl opts inp).exit = 1
    ∧ (runClangImpl opts inp).results
        = inp.jobs.map (fun x => (processJob x).result) := by
  have hres : (processJob j).result = false := by
    simp [processJob, hcmd, hname, hparse, runClangCI, hdiag,
      CreateFrontendAction, hact]
  have hall : (inp.jobs.map processJob).all (fun o => o.result) = false := by
    refine Bool.eq_false_iff.mpr fun hall => ?_
    have h2 := List.all_eq_true.mp hall (processJob j)
      (List.mem_map_of_mem processJob hj)
    rw [hres] at h2
    exact Bool.false_ne_true h2
  constructor
  · simp [runClangImpl, hp, hc, hall]
  · simp [runClangImpl, hp, hc, List.map_map, Function.comp]

/-- C8 amended witness: a concrete run with an unsupported-action job. -/
theorem c8_unsupported_action_fails_run_witness :
    (runClangImpl optsPlain (RunInput.mk false [jobBadAction, jobGood])).exit = 1
    ∧ (runClangImpl optsPlain (RunInput.mk false [jobBadAction, jobGood])).results
        = [jobBadAction, jobGood].map (fun x => (processJob x).result) :=
  c8_unsupported_action_fails_run optsPlain
    (RunInput.mk false [jobBadAction, jobGood]) jobBadAction invBadAction 5
    rfl (by decide) (by decide) rfl rfl rfl rfl rfl

/-- C9: a job that is not a recognized clang compiler command is recorded as
failed, with exactly the two diagnostics — expected-clang-command and
expected-compiler-job carrying the job's serialized description — and no
frontend instance executes for it; the dispatcher still processes every job
of the list in order (the recorded results cover the whole list). -/
theorem c9_non_compiler_job (opts : Options) (pre post : List Job) (j : Job)
    (hnc : ¬(j.isCommand = true ∧ j.creatorName = clangName))
    (hc : ¬(opts.OutputFile ≠ [] ∧ 1 < (pre ++ j :: post).length)) :
    (processJob j).result = false
    ∧ (processJob j).diags
        = [Diag.expectedClangCommand, Diag.expectedCompilerJob j.printedText]
    ∧ (processJob j).executedCI = false
    ∧ (runClangImpl opts (RunInput.mk false (pre ++ j :: post))).results
        = (pre ++ j :: post).map (fun x => (processJob x).result) := by
  refine ⟨?_, ?_, ?_, ?_⟩
  · simp [processJob, hnc]
  · simp [processJob, hnc]
  · simp [processJob, hnc]
  · exact runClangImpl_results opts (RunInput.mk false (pre ++ j :: post)) rfl hc

/-- C9 witness: a concrete non-compiler job followed by a good job. -/
theorem c9_non_compiler_job_witness :
    (processJob jobNonCompiler).result = false
    ∧ (processJob jobNonCompiler).diags
        = [Diag.expectedClangCommand,
           Diag.expectedCompilerJob jobNonCompiler.printedText]
    ∧ (processJob jobNonCompiler).executedCI = false
    ∧ (runClangImpl optsPlain
        (RunInput.mk false ([] ++ jobNonCompiler :: [jobGood]))).results
        = ([] ++ jobNonCompiler :: [jobGood]).map
            (fun x => (processJob x).result) :=
  c9_non_compiler_job optsPlain [] [jobGood] jobNonCompiler (by decide)
    (by decide)

end CastXML
